import Mathlib

/-!
Verification of the code-ledger indexing pipeline against its specification.

The definitions below are a shallow embedding of the TypeScript sources:

* `IndexCoordinator` (src/indexer/index-coordinator.ts): coordinator state,
  `_startIndex` locking, the always-executed finalizer, `handleWatcherEvent`,
  the per-file try/catch of `processChanged`, and the move-retargeting loop
  of `_doIndex`.
* `DbConnection.transaction` and `DbConnection.open` (src/store/connection.ts).
* `RelationRepository.replaceFileRelations` / `getOutgoing`
  (src/store/repositories/relation.repository.ts), with the relations table
  modelled as a list of rows in rowid order.
* `symbolSearch` row reshaping (src/search/symbol-search.ts).

External collaborators (the file system, `JSON.parse`, `_processFile`,
`getByFingerprint`, `resolveFileProject`, sqlite attempt outcomes) enter the
model as explicit oracle arguments, mirroring how the source injects them.
-/

namespace CodeLedger

-- ==========================================================================
-- Watcher events and index results
-- ==========================================================================

/-- Event kinds delivered by the file watcher (`FileChangeEvent.eventType`). -/
inductive EventType where
  | create
  | change
  | delete
deriving DecidableEq, Repr

/-- A watcher event, as consumed by `IndexCoordinator.handleWatcherEvent`. -/
structure FileChangeEvent where
  eventType : EventType
  filePath : String
deriving DecidableEq, Repr

/-- The `IndexResult` payload returned by an indexing run. -/
structure IndexResult where
  indexedFiles : Nat
  removedFiles : Nat
  totalSymbols : Nat
  totalRelations : Nat
  durationMs : Nat
  changedFiles : List String
  deletedFiles : List String
  failedFiles : List String
deriving DecidableEq, Repr

-- ==========================================================================
-- Index coordinator state machine (fields of `IndexCoordinator`)
-- ==========================================================================

/-- The mutable fields of `IndexCoordinator` that govern locking and
debouncing.  `currentIndexing` holds the id of the in-flight run's promise
(`none` when idle); `debounceTimer` records whether a debounce timer is
armed; `boundariesRefresh` records whether a boundaries-refresh promise is
stored. -/
structure CoordState where
  indexingLock : Bool
  pendingEvents : List FileChangeEvent
  pendingFullIndex : Bool
  currentIndexing : Option Nat
  debounceTimer : Bool
  boundariesRefresh : Bool
  nextRunId : Nat
deriving DecidableEq, Repr

/-- Descriptor of a `_doIndex` run spawned by `_startIndex`: the explicit
event list (or `none` for detect-changes mode) and the `useTransaction`
flag (`true` for a full run). -/
structure StartedRun where
  events : Option (List FileChangeEvent)
  useTransaction : Bool
deriving DecidableEq, Repr

/-- Result of the synchronous body of `_startIndex`: the updated coordinator
state, the run that was started in this call (if any), and the promise the
call returns. -/
structure StartResult where
  state : CoordState
  started : Option StartedRun
  returned : Option Nat
deriving DecidableEq, Repr

/-- Embeds the synchronous body of `IndexCoordinator._startIndex`: when the
lock is held, a full request sets `_pendingFullIndex` and the current
promise is returned; otherwise the lock is taken, a fresh run starts, and
its promise is recorded in `currentIndexing`. -/
def startIndex (s : CoordState) (events : Option (List FileChangeEvent))
    (useTransaction : Bool) : StartResult :=
  if s.indexingLock then
    { state := { s with pendingFullIndex := if useTransaction then true else s.pendingFullIndex },
      started := none,
      returned := s.currentIndexing }
  else
    { state := { s with indexingLock := true,
                        currentIndexing := some s.nextRunId,
                        nextRunId := s.nextRunId + 1 },
      started := some { events := events, useTransaction := useTransaction },
      returned := some s.nextRunId }

/-- The first two statements of the `.finally` block of `_startIndex`:
clear the lock and clear `currentIndexing`. -/
def releaseState (s : CoordState) : CoordState :=
  { s with indexingLock := false, currentIndexing := none }

/-- Embeds the whole `.finally` block of `_startIndex`: release the lock and
`currentIndexing`, then drain — a pending full index takes priority over
buffered incremental events.  Returns the new state and the run (if any)
started by the drain. -/
def finalizeRun (s : CoordState) : CoordState × Option StartedRun :=
  let s1 := releaseState s
  if s1.pendingFullIndex then
    let r := startIndex { s1 with pendingFullIndex := false } none true
    (r.state, r.started)
  else if s1.pendingEvents.length > 0 then
    let drained := s1.pendingEvents
    let r := startIndex { s1 with pendingEvents := [] } (some drained) false
    (r.state, r.started)
  else
    (s1, none)

/-- Embeds the completion of a `_doIndex` promise: on resolve the `.then`
stage fires subscriber callbacks (each wrapped in try/catch, so it never
alters coordinator state), then the `.finally` stage runs; on reject the
`.then` stage is skipped and the `.finally` stage still runs. -/
def completeRun (outcome : Except String IndexResult) (s : CoordState) :
    CoordState × Option StartedRun :=
  match outcome with
  | .ok _ => finalizeRun s
  | .error _ => finalizeRun s

/-- Models `String.prototype.endsWith`, computed structurally on the
character list so that concrete instances reduce in the kernel. -/
def strEndsWith (s suffix : String) : Bool :=
  suffix.data.isSuffixOf s.data

/-- Result of the synchronous body of `handleWatcherEvent`: the updated
state, any run started synchronously during the call, and whether this call
armed a new debounce timer. -/
structure HandleResult where
  state : CoordState
  startedRun : Option StartedRun
  timerArmed : Bool
deriving DecidableEq, Repr

/-- Embeds `IndexCoordinator.handleWatcherEvent`.  A path ending in
tsconfig.json clears and reloads the alias cache (external calls) and then
invokes `fullIndex()` synchronously, without buffering the event.  A path
ending in package.json schedules a boundaries refresh and falls through.
All other events are appended to `pendingEvents`; a debounce timer is armed
only when none is armed already. -/
def handleWatcherEvent (s : CoordState) (e : FileChangeEvent) : HandleResult :=
  if strEndsWith e.filePath ("tsconfig.json") then
    let r := startIndex s none true
    { state := r.state, startedRun := r.started, timerArmed := false }
  else
    let s1 := if strEndsWith e.filePath ("package.json") then
                { s with boundariesRefresh := true }
              else s
    let s2 := { s1 with pendingEvents := s1.pendingEvents ++ [e] }
    if s2.debounceTimer then
      { state := s2, startedRun := none, timerArmed := false }
    else
      { state := { s2 with debounceTimer := true }, startedRun := none, timerArmed := true }

-- ==========================================================================
-- Move retargeting (`_doIndex`, move-detection phase)
-- ==========================================================================

/-- A symbol row captured in the pre-deletion snapshot
(`symbolRepo.getFileSymbols`), restricted to the fields the retargeting
loop reads. -/
structure SymbolSnap where
  name : String
  fingerprint : Option String
deriving DecidableEq, Repr

/-- A row returned by `symbolRepo.getByFingerprint`, restricted to the
fields the retargeting loop reads. -/
structure MatchedSymbol where
  filePath : String
  name : String
deriving DecidableEq, Repr

/-- One `relationRepo.retargetRelations` invocation recorded by the model. -/
structure RetargetCall where
  project : String
  oldFile : String
  oldSymbol : String
  newFile : String
  newSymbol : String
deriving DecidableEq, Repr

/-- Embeds the per-symbol body of the move-retargeting loop in `_doIndex`.
The guard is the JavaScript test `if (!sym.fingerprint) continue;`, which
skips null/undefined *and the empty string* (both are falsy).  When the
fingerprint survives the guard, `getByFingerprint` is consulted and the
retarget call is made exactly when the match list is a singleton. -/
def symbolRetargetCalls (resolveProject : String → String)
    (getByFingerprint : String → String → List MatchedSymbol)
    (oldFile : String) (sym : SymbolSnap) : List RetargetCall :=
  match sym.fingerprint with
  | none => []
  | some fp =>
    if fp = "" then []
    else
      let project := resolveProject oldFile
      match getByFingerprint project fp with
      | [m] => [{ project := project, oldFile := oldFile, oldSymbol := sym.name,
                  newFile := m.filePath, newSymbol := m.name }]
      | _ => []

/-- Embeds the full move-retargeting phase of `_doIndex`: iterate over the
snapshot entries and their symbols, collecting every retarget call. -/
def moveRetargetCalls (resolveProject : String → String)
    (getByFingerprint : String → String → List MatchedSymbol)
    (snapshot : List (String × List SymbolSnap)) : List RetargetCall :=
  snapshot.flatMap fun entry =>
    entry.2.flatMap (symbolRetargetCalls resolveProject getByFingerprint entry.1)

-- ==========================================================================
-- Incremental per-file processing (`_doIndex`, `processChanged`)
-- ==========================================================================

/-- Embeds the `processChanged` loop of `_doIndex`: each file is processed
through `_processFile` (an oracle here, since it performs I/O and parsing);
a thrown error is caught, the path is appended to `failedFiles`, and the
loop continues.  The accumulator carries
`(symbols, relations, failedFiles)`. -/
def processChanged (process : String → Except String (Nat × Nat)) :
    List String → Nat × Nat × List String → Nat × Nat × List String
  | [], acc => acc
  | f :: rest, (symbols, relations, failedFiles) =>
    match process f with
    | .ok (s, r) => processChanged process rest (symbols + s, relations + r, failedFiles)
    | .error _ => processChanged process rest (symbols, relations, failedFiles ++ [f])

/-- `processChanged` started from the zero accumulator, as `_doIndex` does. -/
def processChangedRun (process : String → Except String (Nat × Nat))
    (changed : List String) : Nat × Nat × List String :=
  processChanged process changed (0, 0, [])

/-- Whether `_processFile` throws on this file. -/
def fileFailed (process : String → Except String (Nat × Nat)) (f : String) : Bool :=
  match process f with
  | .ok _ => false
  | .error _ => true

/-- The symbol count `_processFile` contributes for this file (0 on throw). -/
def fileSymbols (process : String → Except String (Nat × Nat)) (f : String) : Nat :=
  match process f with
  | .ok (s, _) => s
  | .error _ => 0

/-- The relation count `_processFile` contributes for this file (0 on throw). -/
def fileRelations (process : String → Except String (Nat × Nat)) (f : String) : Nat :=
  match process f with
  | .ok (_, r) => r
  | .error _ => 0

/-- Embeds the incremental (`useTransaction = false`) apply-and-assemble
phase of `_doIndex`: run `processChanged` over the changed files and build
the `IndexResult`.  Per-file errors were already caught inside
`processChanged`, so this phase always resolves (`durationMs` is wall-clock
time in the source and is not modelled). -/
def incrementalRunResult (process : String → Except String (Nat × Nat))
    (changed deleted : List String) : Except String IndexResult :=
  let counts := processChangedRun process changed
  .ok { indexedFiles := changed.length,
        removedFiles := deleted.length,
        totalSymbols := counts.1,
        totalRelations := counts.2.1,
        durationMs := 0,
        changedFiles := changed,
        deletedFiles := deleted,
        failedFiles := counts.2.2 }

-- ==========================================================================
-- DbConnection.transaction (src/store/connection.ts)
-- ==========================================================================

/-- The connection state seen by `DbConnection.transaction`: the database
value `db` (the committed contents) and the `txDepth` nesting counter. -/
structure ConnState (D : Type) where
  db : D
  txDepth : Nat
deriving DecidableEq, Repr

/-- Embeds `DbConnection.transaction`.  The body `fn` is a state transformer
that may throw (it can itself call `transaction`, so it sees the whole
connection state).  At depth 0 the outermost path uses the native
BEGIN/COMMIT/ROLLBACK transaction: commit keeps `fn`'s writes, rollback
restores the database value captured at entry; the depth bump is undone in
the `finally`.  At depth > 0 a savepoint is issued: the snapshot is taken at
entry, success releases the savepoint keeping the writes, failure rolls
back to the savepoint, releases it, and rethrows; the `finally` decrements
the depth on both paths. -/
def transaction {D E T : Type} (fn : ConnState D → Except E T × ConnState D)
    (st : ConnState D) : Except E T × ConnState D :=
  if st.txDepth = 0 then
    match fn { db := st.db, txDepth := st.txDepth + 1 } with
    | (Except.ok v, st2) => (Except.ok v, { db := st2.db, txDepth := st2.txDepth - 1 })
    | (Except.error e, st2) => (Except.error e, { db := st.db, txDepth := st2.txDepth - 1 })
  else
    let snapshot := st.db
    match fn { db := st.db, txDepth := st.txDepth + 1 } with
    | (Except.ok v, st2) => (Except.ok v, { db := st2.db, txDepth := st2.txDepth - 1 })
    | (Except.error e, st2) => (Except.error e, { db := snapshot, txDepth := st2.txDepth - 1 })

-- ==========================================================================
-- DbConnection.open corruption recovery (src/store/connection.ts)
-- ==========================================================================

/-- Outcome of one underlying open attempt (mkdir + sqlite open + pragmas +
migrations + FTS setup): success, or a thrown error together with whether
`_isCorruptionError` holds for it and whether the database file exists at
the moment the error is caught. -/
inductive OpenAttempt where
  | success
  | failure (corrupt : Bool) (dbFileExists : Bool)
deriving DecidableEq, Repr

/-- Errors surfaced by `open`: a raw sqlite/fs error (tagged with whether
its message indicates corruption), or a `StoreError` wrapper — one for the
plain open failure, one for the failed recovery, each chaining its cause.
Neither wrapper's message contains a corruption keyword. -/
inductive OpenErr where
  | raw (corrupt : Bool)
  | storeOpenFail (cause : OpenErr)
  | storeRecoverFail (cause : OpenErr)
deriving DecidableEq, Repr

/-- Embeds `DbConnection.open` against an oracle listing the outcome of each
successive underlying open attempt.  Returns the result, the number of
delete-and-retry cycles performed (main db plus the -wal and -shm
companions deleted each cycle), and the unconsumed attempts.  A corruption failure with the
file present deletes the files and re-enters `open`; any error thrown by
that retry is wrapped as the recovery `StoreError`.  A non-corruption
failure (or a corruption failure with no file) is wrapped as the plain
open `StoreError`. -/
def openRun : List OpenAttempt → Except OpenErr Unit × Nat × List OpenAttempt
  | [] => (Except.error (OpenErr.raw false), 0, [])
  | OpenAttempt.success :: rest => (Except.ok (), 0, rest)
  | OpenAttempt.failure corrupt fx :: rest =>
    if corrupt && fx then
      match openRun rest with
      | (Except.ok (), n, rest2) => (Except.ok (), n + 1, rest2)
      | (Except.error e, n, rest2) =>
          (Except.error (OpenErr.storeRecoverFail e), n + 1, rest2)
    else
      (Except.error (OpenErr.storeOpenFail (OpenErr.raw corrupt)), 0, rest)

-- ==========================================================================
-- RelationRepository (src/store/repositories/relation.repository.ts)
-- ==========================================================================

/-- A row of the relations table, as selected by the repository queries. -/
structure RelationRecord where
  project : String
  type : String
  srcFilePath : String
  srcSymbolName : Option String
  dstFilePath : String
  dstSymbolName : Option String
  metaJson : Option String
deriving DecidableEq, Repr

/-- The TypeScript argument type `Partial<RelationRecord>`: every field may
be absent.  For the nullable columns the inner `Option` is the SQL NULL, so
`none` = property missing and `some none` = explicit null. -/
structure RelationRecordInput where
  project : Option String
  type : Option String
  srcFilePath : Option String
  srcSymbolName : Option (Option String)
  dstFilePath : Option String
  dstSymbolName : Option (Option String)
  metaJson : Option (Option String)
deriving DecidableEq, Repr

/-- A fully specified input: every property of the record is present. -/
def toInput (r : RelationRecord) : RelationRecordInput :=
  { project := some r.project, type := some r.type,
    srcFilePath := some r.srcFilePath, srcSymbolName := some r.srcSymbolName,
    dstFilePath := some r.dstFilePath, dstSymbolName := some r.dstSymbolName,
    metaJson := some r.metaJson }

/-- Embeds the `values({...})` object built per inserted row in
`replaceFileRelations`: the stored project is the call's `project` argument
(the input's own `project` property is never read); `rel.type ?? 'unknown'`,
`rel.srcFilePath ?? srcFilePath`, `rel.dstFilePath ?? ''`; the nullable
columns collapse missing to null via `?? null`. -/
def insertRow (project srcFilePath : String) (rel : RelationRecordInput) :
    RelationRecord :=
  { project := project,
    type := rel.type.getD ("unknown"),
    srcFilePath := rel.srcFilePath.getD srcFilePath,
    srcSymbolName := rel.srcSymbolName.getD none,
    dstFilePath := rel.dstFilePath.getD (""),
    dstSymbolName := rel.dstSymbolName.getD none,
    metaJson := rel.metaJson.getD none }

/-- The relations table, modelled as its rows in rowid order. -/
abbrev RelationTable := List RelationRecord

/-- The WHERE clause of the delete in `replaceFileRelations` (and of
`deleteFileRelations`): `project = ? AND srcFilePath = ?`. -/
def relKey (project srcFilePath : String) (r : RelationRecord) : Bool :=
  r.project == project && r.srcFilePath == srcFilePath

/-- Embeds `replaceFileRelations`: delete every row matching
`(project, srcFilePath)`, then insert each input row with the defaults of
`insertRow` (the early return on an empty list inserts nothing). -/
def replaceFileRelations (project srcFilePath : String)
    (rels : List RelationRecordInput) (table : RelationTable) : RelationTable :=
  let remaining := table.filter (fun r => !relKey project srcFilePath r)
  remaining ++ rels.map (insertRow project srcFilePath)

/-- Embeds `getOutgoing`: filter by `(project, srcFilePath)`, and when a
`srcSymbolName` is passed also by `srcSymbolName = ?` — the SQL equality,
which a NULL column never satisfies. -/
def getOutgoing (project srcFilePath : String) (srcSymbolName : Option String)
    (table : RelationTable) : List RelationRecord :=
  match srcSymbolName with
  | some s =>
      table.filter (fun r =>
        r.project == project && r.srcFilePath == srcFilePath &&
          r.srcSymbolName == some s)
  | none =>
      table.filter (fun r => r.project == project && r.srcFilePath == srcFilePath)

/-- The relation types enumerated by the extractor's `CodeRelation` type. -/
def enumeratedRelationTypes : List String :=
  ["imports", "calls", "extends", "implements"]

-- ==========================================================================
-- symbolSearch row reshaping (src/search/symbol-search.ts)
-- ==========================================================================

/-- A stand-in for a parsed JSON object: its key/value pairs.  The claims
never inspect the contents beyond the empty object `[]`. -/
abbrev JsonValue := List (String × String)

/-- A row returned by `symbolRepo.searchByQuery`. -/
structure SymbolRow where
  id : Nat
  filePath : String
  kind : String
  name : String
  startLine : Nat
  startColumn : Nat
  endLine : Nat
  endColumn : Nat
  isExported : Nat
  signature : Option String
  fingerprint : Option String
  detailJson : Option String
deriving DecidableEq, Repr

/-- A line/column position of a reshaped span. -/
structure Position where
  line : Nat
  column : Nat
deriving DecidableEq, Repr

/-- The grouped span of a search result (`stop` is the source's `end`). -/
structure Span where
  start : Position
  stop : Position
deriving DecidableEq, Repr

/-- A reshaped `SymbolSearchResult`. -/
structure SymbolSearchResult where
  id : Nat
  filePath : String
  kind : String
  name : String
  span : Span
  isExported : Bool
  signature : Option String
  fingerprint : Option String
  detail : JsonValue
deriving DecidableEq, Repr

/-- The reshaped result for a row once its detail value is known. -/
def reshapedRow (r : SymbolRow) (d : JsonValue) : SymbolSearchResult :=
  { id := r.id, filePath := r.filePath, kind := r.kind, name := r.name,
    span := { start := { line := r.startLine, column := r.startColumn },
              stop := { line := r.endLine, column := r.endColumn } },
    isExported := r.isExported == 1,
    signature := r.signature, fingerprint := r.fingerprint, detail := d }

/-- Embeds the per-row body of `records.map` in `symbolSearch`:
`detail: r.detailJson ? JSON.parse(r.detailJson) : {}`.  `jsonParse` is the
external `JSON.parse` (`none` = SyntaxError thrown).  A null or empty
`detailJson` is falsy and yields the empty object; a non-empty string is
parsed with no surrounding catch, so a parse failure throws out of the
mapping. -/
def reshapeRow (jsonParse : String → Option JsonValue) (r : SymbolRow) :
    Except String SymbolSearchResult :=
  match r.detailJson with
  | none => Except.ok (reshapedRow r [])
  | some s =>
    if s = "" then Except.ok (reshapedRow r [])
    else
      match jsonParse s with
      | some j => Except.ok (reshapedRow r j)
      | none => Except.error s

/-- Embeds `records.map(...)` with a callback that can throw: rows are
reshaped left to right and the first thrown error aborts the whole call. -/
def symbolSearchResults (jsonParse : String → Option JsonValue) :
    List SymbolRow → Except String (List SymbolSearchResult)
  | [] => Except.ok []
  | r :: rest =>
    match reshapeRow jsonParse r with
    | Except.error e => Except.error e
    | Except.ok v =>
      match symbolSearchResults jsonParse rest with
      | Except.error e => Except.error e
      | Except.ok vs => Except.ok (v :: vs)

-- ==========================================================================
-- Concrete inputs used by counterexamples and witnesses
-- ==========================================================================

/-- A freshly constructed coordinator: lock free, empty buffer, no timer. -/
def c6InitState : CoordState :=
  { indexingLock := false, pendingEvents := [], pendingFullIndex := false,
    currentIndexing := none, debounceTimer := false, boundariesRefresh := false,
    nextRunId := 0 }

/-- A watcher event for the workspace tsconfig.json. -/
def c6TsconfigEvent : FileChangeEvent :=
  { eventType := EventType.change, filePath := "tsconfig.json" }

/-- An ordinary source-file change event. -/
def c6SourceEvent : FileChangeEvent :=
  { eventType := EventType.change, filePath := "src/a.ts" }

/-- Project resolution oracle used in the C2 scenarios. -/
def c2ResolveProject : String → String := fun _ => "p"

/-- `getByFingerprint` oracle returning exactly one match for any query. -/
def c2OneMatch : String → String → List MatchedSymbol :=
  fun _ _ => [{ filePath := "src/new.ts", name := "movedFn" }]

/-- A snapshot symbol whose fingerprint is the empty string: non-null, yet
falsy in JavaScript. -/
def c2EmptyFpSym : SymbolSnap := { name := "movedFn", fingerprint := some ("") }

/-- A snapshot symbol with an ordinary non-empty fingerprint. -/
def c2GoodSym : SymbolSnap := { name := "movedFn", fingerprint := some ("fp-move") }

/-- `_processFile` oracle for the C3 witness: fails on src/b.ts only. -/
def c3Process : String → Except String (Nat × Nat) := fun f =>
  if f = "src/b.ts" then .error ("parse error") else .ok (2, 1)

/-- A transaction body that succeeds, writing to the database. -/
def c4FnOk : ConnState Nat → Except String Nat × ConnState Nat := fun s =>
  (Except.ok 42, { db := s.db + 1, txDepth := s.txDepth })

/-- A transaction body that scribbles on the database and then throws. -/
def c4FnErr : ConnState Nat → Except String Nat × ConnState Nat := fun s =>
  (Except.error ("boom"), { db := 99, txDepth := s.txDepth })

/-- A fully specified relation row whose own `srcFilePath` (src/b.ts)
differs from the `srcFilePath` argument used in the C5 counterexample. -/
def c5StrayRow : RelationRecord :=
  { project := "p", type := "imports", srcFilePath := "src/b.ts",
    srcSymbolName := none, dstFilePath := "src/c.ts", dstSymbolName := none,
    metaJson := none }

/-- A fully specified relation row keyed by ("p", "src/a.ts"). -/
def c5GoodRow : RelationRecord :=
  { project := "p", type := "calls", srcFilePath := "src/a.ts",
    srcSymbolName := some ("f"), dstFilePath := "src/c.ts",
    dstSymbolName := some ("g"), metaJson := none }

/-- A symbol-level relation row used by the C9 witness. -/
def c9SymRow : RelationRecord :=
  { project := "p", type := "calls", srcFilePath := "src/a.ts",
    srcSymbolName := some ("f"), dstFilePath := "src/b.ts",
    dstSymbolName := some ("g"), metaJson := none }

/-- A file-level relation row (null `srcSymbolName`) of the same
`(project, srcFilePath)` as `c9SymRow`. -/
def c9FileRow : RelationRecord :=
  { project := "p", type := "imports", srcFilePath := "src/a.ts",
    srcSymbolName := none, dstFilePath := "src/b.ts",
    dstSymbolName := none, metaJson := none }

/-- A relation input with every property missing. -/
def c10EmptyInput : RelationRecordInput :=
  { project := none, type := none, srcFilePath := none, srcSymbolName := none,
    dstFilePath := none, dstSymbolName := none, metaJson := none }

/-- Models `JSON.parse` on the strings this development evaluates: the
two-character object literal parses to the empty object, everything else
throws a SyntaxError. -/
def jsonParseStub : String → Option JsonValue := fun s =>
  if s = "\x7b\x7d" then some [] else none

/-- A search row whose stored detailJson is not valid JSON. -/
def c8BadRow : SymbolRow :=
  { id := 1, filePath := "src/a.ts", kind := "function", name := "f",
    startLine := 1, startColumn := 0, endLine := 2, endColumn := 3,
    isExported := 1, signature := none, fingerprint := none,
    detailJson := some ("oops") }

/-- A search row whose stored detailJson is null. -/
def c8NullRow : SymbolRow :=
  { id := 2, filePath := "src/a.ts", kind := "class", name := "C",
    startLine := 3, startColumn := 0, endLine := 9, endColumn := 1,
    isExported := 0, signature := none, fingerprint := some ("fp"),
    detailJson := none }

/-- A search row whose stored detailJson is the empty JSON object. -/
def c8GoodRow : SymbolRow :=
  { id := 3, filePath := "src/b.ts", kind := "variable", name := "x",
    startLine := 1, startColumn := 0, endLine := 1, endColumn := 5,
    isExported := 1, signature := none, fingerprint := none,
    detailJson := some ("\x7b\x7d") }

end CodeLedger

namespace CodeLedger

-- ==========================================================================
-- Theorems
-- ==========================================================================

/-- C1: for every indexing run, whether its promise resolves or rejects, the
always-executed finalizer first clears `indexingLock` and `currentIndexing`
(`releaseState`), and at that moment starts a new full run when
`pendingFullIndex` was set, else drains a non-empty `pendingEvents` buffer
into a new incremental run, full runs taking priority. -/
theorem c1_finalizer_releases_then_drains (outcome : Except String IndexResult)
    (s : CoordState) :
    (releaseState s).indexingLock = false ∧
    (releaseState s).currentIndexing = none ∧
    (if s.pendingFullIndex then
        (completeRun outcome s).2 = some { events := none, useTransaction := true } ∧
        (completeRun outcome s).1.pendingEvents = s.pendingEvents ∧
        (completeRun outcome s).1.pendingFullIndex = false
     else if s.pendingEvents.isEmpty then
        (completeRun outcome s).2 = none ∧
        (completeRun outcome s).1 = releaseState s
     else
        (completeRun outcome s).2 = some { events := some s.pendingEvents, useTransaction := false } ∧
        (completeRun outcome s).1.pendingEvents = []) := by
  have hc : completeRun outcome s = finalizeRun s := by
    cases outcome <;> rfl
  refine ⟨rfl, rfl, ?_⟩
  rw [hc]
  by_cases hf : s.pendingFullIndex
  · simp [finalizeRun, releaseState, startIndex, hf]
  · by_cases he : s.pendingEvents.isEmpty
    · simp [finalizeRun, releaseState, startIndex, hf, he, List.isEmpty_iff.mp he]
    · have hpos : 0 < s.pendingEvents.length := by
        cases hpe : s.pendingEvents with
        | nil => exact absurd (by simp [hpe]) he
        | cons a l => simp [hpe]
      simp [finalizeRun, releaseState, startIndex, hf, he, hpos]

/-- C6 counterexample: with the lock free, a watcher event whose path ends in
tsconfig.json makes `handleWatcherEvent` start a full indexing run
synchronously, append nothing to the pending buffer, and arm no debounce
timer — against the claim that no run is ever started synchronously and the
call only buffers the event. -/
theorem c6_counterexample :
    (handleWatcherEvent c6InitState c6TsconfigEvent).startedRun =
      some { events := none, useTransaction := true } ∧
    (handleWatcherEvent c6InitState c6TsconfigEvent).state.pendingEvents = [] ∧
    (handleWatcherEvent c6InitState c6TsconfigEvent).timerArmed = false := by
  refine ⟨by decide, by decide, by decide⟩

/-- C6 (amended): for every watcher event whose path does not end in
tsconfig.json (package.json events included), `handleWatcherEvent` starts no
indexing run synchronously; it appends the event to `pendingEvents`, leaves
a timer armed afterwards, and arms a new debounce timer exactly when none
was armed — an already-armed timer is never restarted. -/
theorem c6_other_events_only_buffer (s : CoordState) (e : FileChangeEvent)
    (h : strEndsWith e.filePath ("tsconfig.json") = false) :
    (handleWatcherEvent s e).startedRun = none ∧
    (handleWatcherEvent s e).state.pendingEvents = s.pendingEvents ++ [e] ∧
    (handleWatcherEvent s e).state.debounceTimer = true ∧
    (handleWatcherEvent s e).timerArmed = !s.debounceTimer := by
  by_cases hp : strEndsWith e.filePath ("package.json") <;>
    by_cases ht : s.debounceTimer <;>
      simp [handleWatcherEvent, h, hp, ht]

/-- C6 witness: the amended statement evaluated on a fresh coordinator and a
plain source-file event. -/
theorem c6_other_events_only_buffer_witness :
    (handleWatcherEvent c6InitState c6SourceEvent).startedRun = none ∧
    (handleWatcherEvent c6InitState c6SourceEvent).state.pendingEvents =
      c6InitState.pendingEvents ++ [c6SourceEvent] ∧
    (handleWatcherEvent c6InitState c6SourceEvent).state.debounceTimer = true ∧
    (handleWatcherEvent c6InitState c6SourceEvent).timerArmed = !c6InitState.debounceTimer :=
  c6_other_events_only_buffer c6InitState c6SourceEvent (by decide)

/-- C2 counterexample: a snapshot symbol whose fingerprint is the empty
string is non-null, and `getByFingerprint` returns exactly one match for it,
yet the retargeting loop makes no `retargetRelations` call, because the
JavaScript guard `!sym.fingerprint` also skips the empty string. -/
theorem c2_counterexample :
    c2EmptyFpSym.fingerprint ≠ none ∧
    (c2OneMatch ("p") ("")).length = 1 ∧
    symbolRetargetCalls c2ResolveProject c2OneMatch ("src/old.ts") c2EmptyFpSym = [] ∧
    moveRetargetCalls c2ResolveProject c2OneMatch [("src/old.ts", [c2EmptyFpSym])] = [] := by
  refine ⟨by simp [c2EmptyFpSym], rfl, rfl, rfl⟩

/-- C2 (amended): for each snapshot symbol, `retargetRelations` is called if
and only if the fingerprint is non-null *and non-empty* and
`getByFingerprint` returns exactly one match; when called, its arguments are
the snapshot project and path, the symbol's name, and the match's path and
name.  Zero or multiple matches, and null, missing or empty fingerprints,
produce no call and no error. -/
theorem c2_retarget_iff_unique_match (resolveProject : String → String)
    (getByFingerprint : String → String → List MatchedSymbol)
    (oldFile : String) (sym : SymbolSnap) :
    (symbolRetargetCalls resolveProject getByFingerprint oldFile sym ≠ [] ↔
      ∃ fp, sym.fingerprint = some fp ∧ fp ≠ "" ∧
        (getByFingerprint (resolveProject oldFile) fp).length = 1) ∧
    (∀ fp m, sym.fingerprint = some fp → fp ≠ "" →
      getByFingerprint (resolveProject oldFile) fp = [m] →
      symbolRetargetCalls resolveProject getByFingerprint oldFile sym =
        [{ project := resolveProject oldFile, oldFile := oldFile,
           oldSymbol := sym.name, newFile := m.filePath, newSymbol := m.name }]) := by
  constructor
  · cases hfp : sym.fingerprint with
    | none => simp [symbolRetargetCalls, hfp]
    | some fp =>
      by_cases he : fp = ""
      · simp [symbolRetargetCalls, hfp, he]
      · cases hm : getByFingerprint (resolveProject oldFile) fp with
        | nil => simp [symbolRetargetCalls, hfp, he, hm]
        | cons m rest =>
          cases rest with
          | nil =>
            simp only [symbolRetargetCalls, hfp, he, if_false, hm]
            constructor
            · intro _
              exact ⟨fp, rfl, he, by simp [hm]⟩
            · intro _
              simp
          | cons m2 rest2 => simp [symbolRetargetCalls, hfp, he, hm]
  · intro fp m hfp he hm
    simp [symbolRetargetCalls, hfp, he, hm]

/-- C2 witness: the amended statement evaluated on a unique-match scenario
with a non-empty fingerprint. -/
theorem c2_retarget_iff_unique_match_witness :
    symbolRetargetCalls c2ResolveProject c2OneMatch ("src/old.ts") c2GoodSym =
      [{ project := c2ResolveProject ("src/old.ts"), oldFile := "src/old.ts",
         oldSymbol := c2GoodSym.name,
         newFile := ("src/new.ts" : String), newSymbol := ("movedFn" : String) }] :=
  (c2_retarget_iff_unique_match c2ResolveProject c2OneMatch ("src/old.ts") c2GoodSym).2
    ("fp-move") { filePath := "src/new.ts", name := "movedFn" } rfl (by decide) rfl

/-- The `processChanged` accumulator characterised: counts are the sums of
the per-file contributions and `failedFiles` collects exactly the files
whose processing threw, in order. -/
theorem processChanged_spec (process : String → Except String (Nat × Nat))
    (l : List String) (a b : Nat) (fs : List String) :
    processChanged process l (a, b, fs) =
      (a + (l.map (fileSymbols process)).sum,
       b + (l.map (fileRelations process)).sum,
       fs ++ l.filter (fileFailed process)) := by
  induction l generalizing a b fs with
  | nil => simp [processChanged]
  | cons f rest ih =>
    cases hp : process f with
    | ok sr =>
      cases sr with
      | mk sn rn =>
        simp [processChanged, hp, ih, fileSymbols, fileRelations, fileFailed,
          Nat.add_assoc]
    | error err =>
      simp [processChanged, hp, ih, fileSymbols, fileRelations, fileFailed]

/-- C3: in an incremental run, a file whose processing throws is recorded in
`failedFiles`, every other changed file still contributes its symbol and
relation counts, and the run resolves with an `IndexResult` instead of
rejecting. -/
theorem c3_incremental_failure_contained (process : String → Except String (Nat × Nat))
    (changed deleted : List String) :
    ∃ result, incrementalRunResult process changed deleted = Except.ok result ∧
      result.failedFiles = changed.filter (fileFailed process) ∧
      result.totalSymbols = (changed.map (fileSymbols process)).sum ∧
      result.totalRelations = (changed.map (fileRelations process)).sum ∧
      result.changedFiles = changed ∧
      (∀ f, f ∈ changed → fileFailed process f = true → f ∈ result.failedFiles) := by
  refine ⟨_, rfl, ?_, ?_, ?_, rfl, ?_⟩
  · simp [incrementalRunResult, processChangedRun, processChanged_spec]
  · simp [incrementalRunResult, processChangedRun, processChanged_spec]
  · simp [incrementalRunResult, processChangedRun, processChanged_spec]
  · intro f hf hfail
    simp only [incrementalRunResult, processChangedRun, processChanged_spec,
      Nat.zero_add, List.nil_append]
    exact List.mem_filter.mpr ⟨hf, hfail⟩

/-- C3 witness: three changed files where the middle one fails; the failed
path is recorded, and the first and third still contribute their counts. -/
theorem c3_incremental_failure_contained_witness :
    ∃ result,
      incrementalRunResult c3Process ["src/a.ts", "src/b.ts", "src/c.ts"] [] =
        Except.ok result ∧
      result.failedFiles =
        (["src/a.ts", "src/b.ts", "src/c.ts"].filter (fileFailed c3Process)) ∧
      result.totalSymbols =
        ((["src/a.ts", "src/b.ts", "src/c.ts"].map (fileSymbols c3Process)).sum) ∧
      result.totalRelations =
        ((["src/a.ts", "src/b.ts", "src/c.ts"].map (fileRelations c3Process)).sum) ∧
      result.changedFiles = ["src/a.ts", "src/b.ts", "src/c.ts"] ∧
      (∀ f, f ∈ (["src/a.ts", "src/b.ts", "src/c.ts"] : List String) →
        fileFailed c3Process f = true → f ∈ result.failedFiles) :=
  c3_incremental_failure_contained c3Process ["src/a.ts", "src/b.ts", "src/c.ts"] []

/-- C4: `transaction fn` enters `fn` with the entry database and a bumped
depth; when `fn` returns normally it commits (outer) or releases the
savepoint (nested), keeping `fn`'s writes and returning `fn`'s result; when
`fn` throws, the database is restored to its value at entry and the same
error is rethrown; on both paths the `finally` decrements the depth
counter.  Both the depth-0 and the nested branch satisfy this. -/
theorem c4_transaction_commit_rollback {D E T : Type}
    (fn : ConnState D → Except E T × ConnState D) (st : ConnState D) :
    (∀ v st2, fn { db := st.db, txDepth := st.txDepth + 1 } = (Except.ok v, st2) →
      transaction fn st = (Except.ok v, { db := st2.db, txDepth := st2.txDepth - 1 })) ∧
    (∀ e st2, fn { db := st.db, txDepth := st.txDepth + 1 } = (Except.error e, st2) →
      transaction fn st = (Except.error e, { db := st.db, txDepth := st2.txDepth - 1 })) := by
  constructor
  · intro v st2 h
    unfold transaction
    rw [h]
    by_cases hd : st.txDepth = 0 <;> simp [hd]
  · intro e st2 h
    unfold transaction
    rw [h]
    by_cases hd : st.txDepth = 0 <;> simp [hd]

/-- C4 witness: an outermost committing body keeps its write and returns
its value with the depth back at 0; a nested throwing body leaves the
database restored to its entry value (5, not the scribbled 99) with the
depth back at 1. -/
theorem c4_transaction_witness :
    transaction c4FnOk { db := 0, txDepth := 0 } =
      (Except.ok 42, { db := 1, txDepth := 0 }) ∧
    transaction c4FnErr { db := 5, txDepth := 1 } =
      (Except.error ("boom"), { db := 5, txDepth := 1 }) :=
  ⟨(c4_transaction_commit_rollback c4FnOk { db := 0, txDepth := 0 }).1
      42 { db := 1, txDepth := 1 } rfl,
   (c4_transaction_commit_rollback c4FnErr { db := 5, txDepth := 1 }).2
      ("boom") { db := 99, txDepth := 2 } rfl⟩

/-- C7: evaluation of `open` at the failing attempt sequences.  When the
first attempt fails with a corruption error and the retry *also* fails with
a corruption error while the file exists, the code does not stop after a
single retry: it deletes and retries a second time — succeeding silently
(first conjunct, two deletion cycles) or, when the third attempt fails,
surfacing a doubly nested recovery wrapper (second conjunct) — where the
claim (and the code's own comment) promise exactly one retry with a
`StoreFailure` carrying the single retry's failure. -/
theorem c7_corruption_retry_not_single :
    openRun [OpenAttempt.failure true true, OpenAttempt.failure true true,
             OpenAttempt.success] = (Except.ok (), 2, []) ∧
    openRun [OpenAttempt.failure true true, OpenAttempt.failure true true,
             OpenAttempt.failure false true] =
      (Except.error (OpenErr.storeRecoverFail (OpenErr.storeRecoverFail
        (OpenErr.storeOpenFail (OpenErr.raw false)))), 2, []) := by
  refine ⟨rfl, rfl⟩

/-- C9: `getOutgoing` with a symbol name returns only relations whose
`srcSymbolName` equals that name exactly (and whose key matches); a
file-level relation — null `srcSymbolName` — is never in the result, since
the SQL equality is never satisfied by NULL. -/
theorem c9_symbol_filter_excludes_file_level (table : RelationTable)
    (project srcFilePath s : String) :
    (∀ r ∈ getOutgoing project srcFilePath (some s) table,
      r.srcSymbolName = some s ∧ r.project = project ∧ r.srcFilePath = srcFilePath) ∧
    (∀ r ∈ table, r.srcSymbolName = none →
      r ∉ getOutgoing project srcFilePath (some s) table) := by
  constructor
  · intro r hr
    simp only [getOutgoing, List.mem_filter, Bool.and_eq_true, beq_iff_eq] at hr
    exact ⟨hr.2.2, hr.2.1.1, hr.2.1.2⟩
  · intro r _ hnull hmem
    simp [getOutgoing, List.mem_filter, hnull] at hmem

/-- C9 witness: over a table holding one symbol-level and one file-level
row for the same key, the file-level row is excluded from the
symbol-filtered query. -/
theorem c9_symbol_filter_witness :
    c9FileRow ∉ getOutgoing ("p") ("src/a.ts") (some ("f")) [c9SymRow, c9FileRow] :=
  (c9_symbol_filter_excludes_file_level [c9SymRow, c9FileRow]
      ("p") ("src/a.ts") ("f")).2 c9FileRow (by decide) rfl

/-- C10: each inserted row substitutes defaults for missing input fields —
a missing `type` becomes the string unknown (which is outside the
enumerated relation types), a missing `srcFilePath` becomes the call's
`srcFilePath` argument, a missing `dstFilePath` becomes the empty string,
and missing `srcSymbolName`, `dstSymbolName` and `metaJson` become null. -/
theorem c10_insert_defaults (project srcFilePath : String)
    (rel : RelationRecordInput) :
    (rel.type = none → (insertRow project srcFilePath rel).type = "unknown") ∧
    "unknown" ∉ enumeratedRelationTypes ∧
    (rel.srcFilePath = none →
      (insertRow project srcFilePath rel).srcFilePath = srcFilePath) ∧
    (rel.dstFilePath = none → (insertRow project srcFilePath rel).dstFilePath = "") ∧
    (rel.srcSymbolName = none →
      (insertRow project srcFilePath rel).srcSymbolName = none) ∧
    (rel.dstSymbolName = none →
      (insertRow project srcFilePath rel).dstSymbolName = none) ∧
    (rel.metaJson = none → (insertRow project srcFilePath rel).metaJson = none) := by
  refine ⟨?_, by decide, ?_, ?_, ?_, ?_, ?_⟩ <;>
    (intro h; simp [insertRow, h])

/-- C10 witness: the defaults applied to an all-missing input row. -/
theorem c10_insert_defaults_witness :
    (insertRow ("p") ("src/a.ts") c10EmptyInput).type = "unknown" ∧
    (insertRow ("p") ("src/a.ts") c10EmptyInput).srcFilePath = "src/a.ts" ∧
    (insertRow ("p") ("src/a.ts") c10EmptyInput).dstFilePath = "" ∧
    (insertRow ("p") ("src/a.ts") c10EmptyInput).srcSymbolName = none ∧
    (insertRow ("p") ("src/a.ts") c10EmptyInput).dstSymbolName = none ∧
    (insertRow ("p") ("src/a.ts") c10EmptyInput).metaJson = none :=
  ⟨(c10_insert_defaults ("p") ("src/a.ts") c10EmptyInput).1 rfl,
   (c10_insert_defaults ("p") ("src/a.ts") c10EmptyInput).2.2.1 rfl,
   (c10_insert_defaults ("p") ("src/a.ts") c10EmptyInput).2.2.2.1 rfl,
   (c10_insert_defaults ("p") ("src/a.ts") c10EmptyInput).2.2.2.2.1 rfl,
   (c10_insert_defaults ("p") ("src/a.ts") c10EmptyInput).2.2.2.2.2.1 rfl,
   (c10_insert_defaults ("p") ("src/a.ts") c10EmptyInput).2.2.2.2.2.2 rfl⟩

/-- C5 counterexample: replacing the relations of ("p", "src/a.ts") with one
fully specified row whose own `srcFilePath` is src/b.ts stores that row
under ("p", "src/b.ts"): the subsequent `getOutgoing` for the call's key
returns nothing (not the written set), and the outgoing set of the *other*
key ("p", "src/b.ts") — untouched by the arguments — changes. -/
theorem c5_counterexample :
    getOutgoing ("p") ("src/a.ts") none
        (replaceFileRelations ("p") ("src/a.ts") [toInput c5StrayRow] []) = [] ∧
    getOutgoing ("p") ("src/b.ts") none
        (replaceFileRelations ("p") ("src/a.ts") [toInput c5StrayRow] []) ≠
      getOutgoing ("p") ("src/b.ts") none [] := by
  refine ⟨by decide, by decide⟩

/-- A fully specified input whose `project` matches the call argument is
stored unchanged by `insertRow`. -/
theorem insertRow_toInput (project srcFilePath : String) (r : RelationRecord)
    (hp : r.project = project) :
    insertRow project srcFilePath (toInput r) = r := by
  cases r with
  | mk p t sf ss df ds mj =>
    simp only [RelationRecord.project] at hp
    simp [insertRow, toInput, hp]

/-- C5 (amended): for rows that are fully specified *and* carry the call's
`(project, srcFilePath)` as their own key, `replaceFileRelations` followed
by `getOutgoing` on that key returns exactly the written rows, and the
outgoing relations of every other `(project, srcFilePath)` key are
unchanged. -/
theorem c5_replace_then_get_outgoing (project srcFilePath : String)
    (rels : List RelationRecord) (table : RelationTable)
    (h : ∀ r ∈ rels, r.project = project ∧ r.srcFilePath = srcFilePath) :
    getOutgoing project srcFilePath none
        (replaceFileRelations project srcFilePath (rels.map toInput) table) = rels ∧
    (∀ p2 f2, ¬(p2 = project ∧ f2 = srcFilePath) →
      getOutgoing p2 f2 none
          (replaceFileRelations project srcFilePath (rels.map toInput) table) =
        getOutgoing p2 f2 none table) := by
  have hmap : (rels.map toInput).map (insertRow project srcFilePath) = rels := by
    rw [List.map_map]
    have hpt : ∀ r ∈ rels, (insertRow project srcFilePath ∘ toInput) r = id r := by
      intro r hr
      simpa using insertRow_toInput project srcFilePath r (h r hr).1
    rw [List.map_congr_left hpt, List.map_id]
  have hrepl : replaceFileRelations project srcFilePath (rels.map toInput) table =
      table.filter (fun r => !relKey project srcFilePath r) ++ rels := by
    simp [replaceFileRelations, hmap]
  constructor
  · show (replaceFileRelations project srcFilePath (rels.map toInput) table).filter
        (fun r => r.project == project && r.srcFilePath == srcFilePath) = rels
    rw [hrepl, List.filter_append]
    have h1 : (table.filter (fun r => !relKey project srcFilePath r)).filter
        (fun r => r.project == project && r.srcFilePath == srcFilePath) = [] := by
      rw [List.filter_filter]
      apply List.filter_eq_nil_iff.mpr
      intro r _
      show ¬(relKey project srcFilePath r && !relKey project srcFilePath r) = true
      simp
    have h2 : rels.filter
        (fun r => r.project == project && r.srcFilePath == srcFilePath) = rels := by
      apply List.filter_eq_self.mpr
      intro r hr
      simp [(h r hr).1, (h r hr).2]
    rw [h1, h2, List.nil_append]
  · intro p2 f2 hk
    show (replaceFileRelations project srcFilePath (rels.map toInput) table).filter
        (fun r => r.project == p2 && r.srcFilePath == f2) =
      table.filter (fun r => r.project == p2 && r.srcFilePath == f2)
    rw [hrepl, List.filter_append]
    have h3 : rels.filter (fun r => r.project == p2 && r.srcFilePath == f2) = [] := by
      apply List.filter_eq_nil_iff.mpr
      intro r hr
      obtain ⟨hp, hf⟩ := h r hr
      simp only [hp, hf, Bool.and_eq_true, beq_iff_eq, not_and]
      intro h1 h2
      exact hk ⟨h1.symm, h2.symm⟩
    have h4 : (table.filter (fun r => !relKey project srcFilePath r)).filter
        (fun r => r.project == p2 && r.srcFilePath == f2) =
      table.filter (fun r => r.project == p2 && r.srcFilePath == f2) := by
      rw [List.filter_filter]
      apply List.filter_congr
      intro r _
      by_cases hrp : r.project = p2 <;> by_cases hrf : r.srcFilePath = f2 <;>
        simp [relKey, hrp, hrf]
      exact not_and_or.mp hk
    rw [h3, h4, List.append_nil]

/-- C5 witness: writing one well-keyed row over a table holding one row of a
different key round-trips exactly, and the other key's outgoing set is
untouched. -/
theorem c5_replace_then_get_outgoing_witness :
    getOutgoing ("p") ("src/a.ts") none
        (replaceFileRelations ("p") ("src/a.ts") ([c5GoodRow].map toInput)
          [c5StrayRow]) = [c5GoodRow] ∧
    getOutgoing ("p") ("src/b.ts") none
        (replaceFileRelations ("p") ("src/a.ts") ([c5GoodRow].map toInput)
          [c5StrayRow]) = getOutgoing ("p") ("src/b.ts") none [c5StrayRow] :=
  ⟨(c5_replace_then_get_outgoing ("p") ("src/a.ts") [c5GoodRow] [c5StrayRow]
      (by decide)).1,
   (c5_replace_then_get_outgoing ("p") ("src/a.ts") [c5GoodRow] [c5StrayRow]
      (by decide)).2 ("p") ("src/b.ts") (by decide)⟩

/-- C8 counterexample: a stored detailJson that is not valid JSON makes the
reshaping of `symbolSearch` throw the parse error, so the search call fails
instead of succeeding with an empty detail object. -/
theorem c8_counterexample :
    jsonParseStub ("oops") = none ∧
    c8BadRow.detailJson = some ("oops") ∧
    symbolSearchResults jsonParseStub [c8BadRow] = Except.error ("oops") := by
  refine ⟨rfl, rfl, rfl⟩

/-- If some row of the batch reshapes to an error, the whole mapping throws. -/
theorem symbolSearchResults_error_of_mem (jsonParse : String → Option JsonValue)
    (rows : List SymbolRow) (r : SymbolRow) (hmem : r ∈ rows)
    (hr : ∃ e0, reshapeRow jsonParse r = Except.error e0) :
    ∃ e, symbolSearchResults jsonParse rows = Except.error e := by
  induction rows with
  | nil => cases hmem
  | cons hd tl ih =>
    cases hresh : reshapeRow jsonParse hd with
    | error e2 => exact ⟨e2, by simp [symbolSearchResults, hresh]⟩
    | ok v =>
      rcases List.mem_cons.mp hmem with heq | htl
      · obtain ⟨e0, he0⟩ := hr
        rw [heq] at he0
        rw [he0] at hresh
        cases hresh
      · obtain ⟨e, he⟩ := ih htl
        exact ⟨e, by simp [symbolSearchResults, hresh, he]⟩

/-- C8 (amended): a null detailJson (and likewise an empty string, which is
also falsy) yields the empty detail object and the row reshapes
successfully; a non-empty detailJson that parses yields the parsed object;
but when any row's non-empty detailJson fails to parse, the whole search
call throws rather than substituting an empty object. -/
theorem c8_detail_parse (jsonParse : String → Option JsonValue)
    (rows : List SymbolRow) (r : SymbolRow) :
    (r.detailJson = none → reshapeRow jsonParse r = Except.ok (reshapedRow r [])) ∧
    (r.detailJson = some ("") → reshapeRow jsonParse r = Except.ok (reshapedRow r [])) ∧
    (∀ s j, r.detailJson = some s → s ≠ "" → jsonParse s = some j →
      reshapeRow jsonParse r = Except.ok (reshapedRow r j)) ∧
    (∀ s, r ∈ rows → r.detailJson = some s → s ≠ "" → jsonParse s = none →
      ∃ e, symbolSearchResults jsonParse rows = Except.error e) := by
  refine ⟨?_, ?_, ?_, ?_⟩
  · intro hd
    simp [reshapeRow, hd]
  · intro hd
    simp [reshapeRow, hd]
  · intro s j hd hne hp
    simp [reshapeRow, hd, hne, hp]
  · intro s hmem hd hne hp
    apply symbolSearchResults_error_of_mem jsonParse rows r hmem
    exact ⟨s, by simp [reshapeRow, hd, hne, hp]⟩

/-- C8 witness: a null-detail row and an empty-object row reshape with empty
detail; adding an invalid-detail row to the batch makes the whole call
throw. -/
theorem c8_detail_parse_witness :
    reshapeRow jsonParseStub c8NullRow = Except.ok (reshapedRow c8NullRow []) ∧
    reshapeRow jsonParseStub c8GoodRow = Except.ok (reshapedRow c8GoodRow []) ∧
    (∃ e, symbolSearchResults jsonParseStub [c8GoodRow, c8BadRow] =
      Except.error e) :=
  ⟨(c8_detail_parse jsonParseStub [] c8NullRow).1 rfl,
   (c8_detail_parse jsonParseStub [] c8GoodRow).2.2.1
      ("\x7b\x7d") [] rfl (by decide) rfl,
   (c8_detail_parse jsonParseStub [c8GoodRow, c8BadRow] c8BadRow).2.2.2
      ("oops") (by decide) rfl (by decide) rfl⟩

end CodeLedger
